import Mathlib

/-!
Verification of the candidate-job match scoring and lifecycle subsystem of
AI Recruiter Pro.  The Python sources `models/match.py` (class
`JobCandidateMatch` with helper `MatchHistory`) and `models/matching.py`
(class `CandidateJobMatch`) are embedded shallowly: float arithmetic is
modelled by real arithmetic, Python lists by `List ℝ`, Python sets built by
`{s.lower() for s in xs}` by `Finset String`, database lookups by functions
`Nat → Option _`, raised exceptions by `Except`, and the wall clock by an
explicit `now : Nat` argument.  A method that mutates `self` is embedded as
a function returning the updated record; the list of `MatchHistory` rows a
method inserts is returned alongside (the scoring methods in the source
construct none, so that component is `[]` on every path, which is itself a
fact checked against the source).
-/

namespace AIRecruiter

open Classical

/-- Sum of squares of the entries of a vector; `np.linalg.norm` squared. -/
def sumSq (v : List ℝ) : ℝ := (v.map (fun x => x * x)).sum

/-- Dot product of two equal-length vectors, `np.dot` on 1-D arrays. -/
def dotList (a b : List ℝ) : ℝ := (List.zipWith (fun x y => x * y) a b).sum

/-- Euclidean norm, `np.linalg.norm`. -/
noncomputable def normE (v : List ℝ) : ℝ := Real.sqrt (sumSq v)

/-- The bound `max(0.0, min(1.0, x))` applied by both similarity routines. -/
noncomputable def clamp01 (x : ℝ) : ℝ := max 0 (min 1 x)

/-- Errors of the similarity calculators: `np.dot` raises on 1-D arrays of
unequal length, which the spec's taxonomy calls `DimensionMismatch`. -/
inductive SimError where
  | dimensionMismatch
deriving DecidableEq

/-- Candidate row: the fields the matching code reads.  An absent embedding
(Python `None`) is modelled by the empty list, which is equally falsy. -/
structure Candidate where
  skills_array : List String
  embedding : List ℝ

/-- Job row: the fields the matching code reads. -/
structure Job where
  skills_array : List String
  embedding : List ℝ

/-- The database visible to the scoring methods via `Model.query.get`. -/
structure Db where
  candidates : Nat → Option Candidate
  jobs : Nat → Option Job

/-- Python `str.lower()` on a string, written as a direct map over the
character data (the library's `String.toLower` is the same map but is
opaque to kernel reduction). -/
def pyLower (s : String) : String := ⟨s.data.map Char.toLower⟩

/-- Python `str.strip()`: drop leading and trailing whitespace. -/
def pyStrip (s : String) : String :=
  ⟨((s.data.dropWhile Char.isWhitespace).reverse.dropWhile Char.isWhitespace).reverse⟩

/-- Skill set as built by the source: `{s.lower() for s in arr}`. -/
def skillSet (arr : List String) : Finset String :=
  (arr.map pyLower).toFinset

/-- Row of the `match_history` table (`MatchHistory` in `models/match.py`). -/
structure MatchHistoryEntry where
  match_id : Nat
  old_score : ℝ
  new_score : ℝ
  old_status : String
  new_status : String
  timestamp : Nat

/-- The `match_data` payload written by `JobCandidateMatch.calculate_score`:
keys `embedding_similarity`, `skill_match_score`, `total_score`,
`last_calculated_at`. -/
structure ScoreDetail where
  embedding_similarity : ℝ
  skill_match_score : ℝ
  total_score : ℝ
  last_calculated_at : Nat

/-- Mutable state of a `job_candidate_matches` row (`models/match.py`). -/
structure JobCandidateMatch where
  job_id : Nat
  candidate_id : Nat
  score : ℝ
  match_data : Option ScoreDetail
  status : String

namespace JobCandidateMatch

/-- Embeds `JobCandidateMatch._cosine_similarity`: empty input short-circuits
to `0.0`; `np.dot` fails on unequal lengths; a zero norm yields `0.0`; the
result is bounded by `max(0.0, min(1.0, similarity))`. -/
noncomputable def cosine_similarity (vector_a vector_b : List ℝ) :
    Except SimError ℝ :=
  if vector_a.isEmpty || vector_b.isEmpty then .ok 0
  else if vector_a.length ≠ vector_b.length then .error .dimensionMismatch
  else if normE vector_a = 0 ∨ normE vector_b = 0 then .ok 0
  else .ok (clamp01 (dotList vector_a vector_b / (normE vector_a * normE vector_b)))

/-- Embeds `JobCandidateMatch._calculate_skill_match_score`: fetches job and
candidate, returns `0.0` when either is missing or either lower-cased skill
set is empty, otherwise Jaccard similarity of the lower-cased sets. -/
noncomputable def calculate_skill_match_score (db : Db) (self : JobCandidateMatch) : ℝ :=
  match db.jobs self.job_id, db.candidates self.candidate_id with
  | some job, some candidate =>
    let job_skills := skillSet job.skills_array
    let candidate_skills := skillSet candidate.skills_array
    if job_skills = ∅ ∨ candidate_skills = ∅ then 0
    else if (job_skills ∪ candidate_skills).card = 0 then 0
    else ((job_skills ∩ candidate_skills).card : ℝ) / ((job_skills ∪ candidate_skills).card : ℝ)
  | _, _ => 0

/-- Resolution of the `job_embedding` argument in `calculate_score`: a falsy
argument is replaced by the job row's embedding (or `None` if no job). -/
def resolved_job_embedding (db : Db) (self : JobCandidateMatch)
    (job_embedding : List ℝ) : List ℝ :=
  if job_embedding.isEmpty then
    match db.jobs self.job_id with
    | some job => job.embedding
    | none => []
  else job_embedding

/-- Resolution of the `candidate_embedding` argument in `calculate_score`. -/
def resolved_candidate_embedding (db : Db) (self : JobCandidateMatch)
    (candidate_embedding : List ℝ) : List ℝ :=
  if candidate_embedding.isEmpty then
    match db.candidates self.candidate_id with
    | some candidate => candidate.embedding
    | none => []
  else candidate_embedding

/-- Embeds `JobCandidateMatch.calculate_score`.  Returns the value the
method returns, the updated `self`, and the `MatchHistory` rows inserted by
the method body (none: the source never constructs a `MatchHistory` here).
On the skill-only fallback path the method returns early without touching
`self.score` or `self.match_data`. -/
noncomputable def calculate_score (db : Db) (self : JobCandidateMatch)
    (job_embedding candidate_embedding : List ℝ) (now : Nat) :
    Except SimError (ℝ × JobCandidateMatch × List MatchHistoryEntry) :=
  let je := resolved_job_embedding db self job_embedding
  let ce := resolved_candidate_embedding db self candidate_embedding
  if je.isEmpty || ce.isEmpty then
    .ok (calculate_skill_match_score db self, self, [])
  else
    match cosine_similarity je ce with
    | .error e => .error e
    | .ok embedding_similarity =>
      let embedding_score := embedding_similarity * 0.6
      let skill_score := calculate_skill_match_score db self * 0.4
      let total_score := embedding_score + skill_score
      .ok (total_score,
        { self with
          score := total_score,
          match_data := some
            { embedding_similarity := embedding_similarity,
              skill_match_score := skill_score,
              total_score := total_score,
              last_calculated_at := now } },
        [])

end JobCandidateMatch

/-- The `match_data` payload written by
`CandidateJobMatch.calculate_match_score`: keys `skills_match_score`,
`embedding_match_score`, `total_score`, `calculation_timestamp`. -/
structure ScoreDetailM where
  skills_match_score : ℝ
  embedding_match_score : ℝ
  total_score : ℝ
  calculation_timestamp : Nat

/-- Mutable state of a `candidate_job_matches` row (`models/matching.py`).
The table carries `UniqueConstraint("candidate_id", "job_id")`. -/
structure CandidateJobMatch where
  candidate_id : Nat
  job_id : Nat
  match_score : ℝ
  skills_match_score : ℝ
  embedding_match_score : ℝ
  match_data : Option ScoreDetailM

namespace CandidateJobMatch

/-- Embeds `CandidateJobMatch._calculate_skills_match`: lower-cased skill
sets from the two objects, `0.0` when either is empty, otherwise Jaccard
similarity guarded by `union > 0`. -/
noncomputable def calculate_skills_match (candidate : Candidate) (job : Job) : ℝ :=
  let candidate_skills := skillSet candidate.skills_array
  let job_skills := skillSet job.skills_array
  if candidate_skills = ∅ ∨ job_skills = ∅ then 0
  else if 0 < (candidate_skills ∪ job_skills).card then
    ((candidate_skills ∩ job_skills).card : ℝ) / ((candidate_skills ∪ job_skills).card : ℝ)
  else 0

/-- Embeds `CandidateJobMatch._calculate_embedding_match`: `np.dot` fails on
1-D arrays of unequal length (there is no emptiness short-circuit in this
variant); a zero norm yields `0.0`; the result is bounded by
`max(0.0, min(1.0, similarity))`. -/
noncomputable def calculate_embedding_match (candidate_embedding job_embedding : List ℝ) :
    Except SimError ℝ :=
  if candidate_embedding.length ≠ job_embedding.length then .error .dimensionMismatch
  else if normE candidate_embedding = 0 ∨ normE job_embedding = 0 then .ok 0
  else .ok (clamp01 (dotList candidate_embedding job_embedding /
    (normE candidate_embedding * normE job_embedding)))

/-- Resolution of the `candidate` argument in `calculate_match_score`: a
falsy argument is replaced by a database lookup. -/
def resolved_candidate (db : Db) (self : CandidateJobMatch)
    (candidate : Option Candidate) : Option Candidate :=
  match candidate with
  | some c => some c
  | none => db.candidates self.candidate_id

/-- Resolution of the `job` argument in `calculate_match_score`. -/
def resolved_job (db : Db) (self : CandidateJobMatch) (job : Option Job) : Option Job :=
  match job with
  | some j => some j
  | none => db.jobs self.job_id

/-- Embeds `CandidateJobMatch.calculate_match_score`.  Returns the value the
method returns, the updated `self`, and the `MatchHistory` rows inserted by
the method body (none: the source never constructs any history row here).
When candidate or job is missing the method returns `0.0` before mutating
anything; on the fallback path (either embedding falsy) it stores the skill
score as `match_score`, zeroes `embedding_match_score` and returns without
writing `match_data`. -/
noncomputable def calculate_match_score (db : Db) (self : CandidateJobMatch)
    (candidate : Option Candidate) (job : Option Job) (now : Nat) :
    Except SimError (ℝ × CandidateJobMatch × List MatchHistoryEntry) :=
  match resolved_candidate db self candidate, resolved_job db self job with
  | some c, some j =>
    let skills := calculate_skills_match c j
    let self1 := { self with skills_match_score := skills }
    if c.embedding.isEmpty || j.embedding.isEmpty then
      .ok (skills, { self1 with embedding_match_score := 0, match_score := skills }, [])
    else
      match calculate_embedding_match c.embedding j.embedding with
      | .error e => .error e
      | .ok emb =>
        let total := skills * 0.4 + emb * 0.6
        .ok (total,
          { self1 with
            embedding_match_score := emb,
            match_score := total,
            match_data := some
              { skills_match_score := skills,
                embedding_match_score := emb,
                total_score := total,
                calculation_timestamp := now } },
          [])
  | _, _ => .ok (0, self, [])

end CandidateJobMatch

/-- Review status of a match, the four values named in the source comment
`# new, reviewed, contacted, rejected` (`app/models/matching.py`). -/
inductive MatchStatus where
  | new
  | reviewed
  | contacted
  | rejected
deriving DecidableEq

/-- Modelled from the spec: a stored `MatchRecord` as handled by the Match
Record Manager (§4.4), whose `computeAndStore` implementation is absent from
the sources; only the `UniqueConstraint("candidate_id", "job_id")`
declarations exist.  `status = new` at creation. -/
structure StoredMatch where
  candidate_id : Nat
  job_id : Nat
  match_score : ℝ
  status : MatchStatus

/-- Whether a stored record carries the natural key `(c, j)`. -/
def hasKey (c j : Nat) (r : StoredMatch) : Bool :=
  r.candidate_id == c && r.job_id == j

/-- Modelled from the spec: the upsert at the heart of `computeAndStore`
(§4.4) — "If a record already exists, this updates its score fields in
place ...; it does not change `status`.  If no record exists, creates one
with `status = new`."  The store is the list of live rows of the table. -/
def upsertMatch (store : List StoredMatch) (c j : Nat) (score : ℝ) :
    List StoredMatch :=
  if store.any (hasKey c j) then
    store.map (fun r => if hasKey c j r then { r with match_score := score } else r)
  else
    store ++ [{ candidate_id := c, job_id := j, match_score := score, status := .new }]

/-- States of the match table reachable from the empty table by
`computeAndStore` upserts. -/
inductive ReachableStore : List StoredMatch → Prop where
  | nil : ReachableStore []
  | step (store : List StoredMatch) (c j : Nat) (score : ℝ) :
      ReachableStore store → ReachableStore (upsertMatch store c j score)

/-- Number of live rows carrying the natural key `(c, j)`. -/
def keyCount (store : List StoredMatch) (c j : Nat) : Nat :=
  (store.filter (hasKey c j)).length

/-- Error raised by the Status Workflow on a transition not in the table. -/
inductive WorkflowError where
  | invalidTransition
deriving DecidableEq

/-- History entry written by a successful status transition (§4.5). -/
structure WorkflowHistoryEntry where
  old_status : MatchStatus
  new_status : MatchStatus
  actor_id : Nat
  note : Option String
  timestamp : Nat

/-- Modelled from the spec: the Status Workflow transition table (§4.5) —
`new → reviewed → contacted`, `rejected` reachable from any of `new`,
`reviewed`, `contacted`, no transition out of `rejected`.  No transition
code for match status exists in the sources; only the status column with
its comment does. -/
def allowed : MatchStatus → MatchStatus → Bool
  | .new, .reviewed => true
  | .reviewed, .contacted => true
  | .new, .rejected => true
  | .reviewed, .rejected => true
  | .contacted, .rejected => true
  | _, _ => false

/-- Modelled from the spec: `transition(matchRecordId, newStatus, actorId,
note?)` (§4.5).  Fails with `InvalidTransition` when `newStatus` is not
reachable from the current status; a re-entrant transition to the same
status succeeds as a no-op writing no history entry; a proper transition
updates the status and writes exactly one history entry. -/
def transition (record : StoredMatch) (newStatus : MatchStatus) (actorId : Nat)
    (note : Option String) (now : Nat) :
    Except WorkflowError (StoredMatch × List WorkflowHistoryEntry) :=
  if newStatus = record.status then
    .ok (record, [])
  else if allowed record.status newStatus then
    .ok ({ record with status := newStatus },
      [{ old_status := record.status, new_status := newStatus,
         actor_id := actorId, note := note, timestamp := now }])
  else
    .error .invalidTransition

/-- Follows the spec's words (§4.2), for comparison with the source's skill
overlap: "normalizes each name (case-fold, trim) and computes Jaccard
similarity = |intersection| / |union|. If either input set is empty,
returns 0". -/
noncomputable def skillOverlapSpec (a b : List String) : ℝ :=
  let sa := (a.map (fun s => pyLower (pyStrip s))).toFinset
  let sb := (b.map (fun s => pyLower (pyStrip s))).toFinset
  if sa = ∅ ∨ sb = ∅ then 0
  else ((sa ∩ sb).card : ℝ) / ((sa ∪ sb).card : ℝ)

/-! Basic numeric lemmas about the shared helpers. -/

lemma sumSq_nonneg (v : List ℝ) : 0 ≤ sumSq v := by
  refine List.sum_nonneg ?_
  intro x hx
  rcases List.mem_map.mp hx with ⟨y, _, rfl⟩
  exact mul_self_nonneg y

lemma dotList_self (v : List ℝ) : dotList v v = sumSq v := by
  induction v with
  | nil => rfl
  | cons x xs ih =>
    simp [dotList, sumSq, List.zipWith, List.map] at ih ⊢

lemma normE_nonneg (v : List ℝ) : 0 ≤ normE v := Real.sqrt_nonneg _

lemma normE_eq_zero_iff (v : List ℝ) : normE v = 0 ↔ sumSq v = 0 := by
  constructor
  · intro h
    exact le_antisymm (Real.sqrt_eq_zero'.mp h) (sumSq_nonneg v)
  · intro h
    simp [normE, h]

lemma clamp01_nonneg (x : ℝ) : 0 ≤ clamp01 x := le_max_left 0 _

lemma clamp01_le_one (x : ℝ) : clamp01 x ≤ 1 :=
  max_le zero_le_one (min_le_left 1 x)

lemma clamp01_of_nonpos {x : ℝ} (h : x ≤ 0) : clamp01 x = 0 := by
  unfold clamp01
  rw [min_eq_right (h.trans zero_le_one), max_eq_left h]

lemma clamp01_one : clamp01 1 = 1 := by
  unfold clamp01
  rw [min_self, max_eq_right zero_le_one]

lemma normE_mul_self (v : List ℝ) : normE v * normE v = sumSq v := by
  unfold normE
  exact Real.mul_self_sqrt (sumSq_nonneg v)

/-- Cosine similarity of a nonempty vector with itself is exactly `1` when
the vector has nonzero magnitude. -/
lemma cosine_self (v : List ℝ) (hv : v.isEmpty = false) (hs : sumSq v ≠ 0) :
    JobCandidateMatch.cosine_similarity v v = .ok 1 := by
  have hn : normE v ≠ 0 := fun h => hs ((normE_eq_zero_iff v).mp h)
  simp [JobCandidateMatch.cosine_similarity, hv, hn, dotList_self,
    normE_mul_self, div_self hs, clamp01_one]

namespace JobCandidateMatch

lemma resolved_job_embedding_nonempty (db : Db) (self : JobCandidateMatch)
    {je : List ℝ} (h : je.isEmpty = false) :
    resolved_job_embedding db self je = je := by
  simp [resolved_job_embedding, h]

lemma resolved_candidate_embedding_nonempty (db : Db) (self : JobCandidateMatch)
    {ce : List ℝ} (h : ce.isEmpty = false) :
    resolved_candidate_embedding db self ce = ce := by
  simp [resolved_candidate_embedding, h]

/-- On the skill-only fallback path (either resolved embedding falsy) the
method returns the skill score, leaves `self` untouched and inserts no
history row. -/
lemma calculate_score_fallback (db : Db) (self : JobCandidateMatch)
    (a b : List ℝ) (now : Nat)
    (h : ((resolved_job_embedding db self a).isEmpty
      || (resolved_candidate_embedding db self b).isEmpty) = true) :
    calculate_score db self a b now =
      .ok (calculate_skill_match_score db self, self, []) := by
  simp only [calculate_score]
  rw [if_pos h]

/-- On the full-combination path the method returns the weighted blend,
stores it with the `match_data` payload and inserts no history row. -/
lemma calculate_score_full (db : Db) (self : JobCandidateMatch)
    (a b : List ℝ) (now : Nat) (s : ℝ)
    (hab : ((resolved_job_embedding db self a).isEmpty
      || (resolved_candidate_embedding db self b).isEmpty) = false)
    (hcos : cosine_similarity (resolved_job_embedding db self a)
      (resolved_candidate_embedding db self b) = .ok s) :
    calculate_score db self a b now =
      .ok (s * 0.6 + calculate_skill_match_score db self * 0.4,
        { self with
          score := s * 0.6 + calculate_skill_match_score db self * 0.4,
          match_data := some
            { embedding_similarity := s,
              skill_match_score := calculate_skill_match_score db self * 0.4,
              total_score := s * 0.6 + calculate_skill_match_score db self * 0.4,
              last_calculated_at := now } }, []) := by
  simp only [calculate_score]
  rw [hab, if_neg (by simp), hcos]

lemma cosine_similarity_ok (a b : List ℝ) (h : a.length = b.length) :
    ∃ r, cosine_similarity a b = .ok r ∧ 0 ≤ r ∧ r ≤ 1 := by
  rcases Bool.eq_false_or_eq_true (a.isEmpty || b.isEmpty) with he | he
  · exact ⟨0, by simp [cosine_similarity, he], le_refl 0, zero_le_one⟩
  · by_cases hn : normE a = 0 ∨ normE b = 0
    · exact ⟨0, by simp [cosine_similarity, he, h, hn], le_refl 0, zero_le_one⟩
    · refine ⟨clamp01 (dotList a b / (normE a * normE b)), ?_,
        clamp01_nonneg _, clamp01_le_one _⟩
      simp [cosine_similarity, he, h, hn]

lemma cosine_similarity_empty (a b : List ℝ) (h : (a.isEmpty || b.isEmpty) = true) :
    cosine_similarity a b = .ok 0 := by
  simp [cosine_similarity, h]

lemma cosine_similarity_zero_norm (a b : List ℝ) (h : a.length = b.length)
    (hn : normE a = 0 ∨ normE b = 0) :
    cosine_similarity a b = .ok 0 := by
  rcases Bool.eq_false_or_eq_true (a.isEmpty || b.isEmpty) with he | he
  · simp [cosine_similarity, he]
  · simp [cosine_similarity, he, h, hn]

lemma cosine_similarity_neg (a b : List ℝ) (h : a.length = b.length)
    (hd : dotList a b < 0) :
    cosine_similarity a b = .ok 0 := by
  rcases Bool.eq_false_or_eq_true (a.isEmpty || b.isEmpty) with he | he
  · simp [cosine_similarity, he]
  · by_cases hn : normE a = 0 ∨ normE b = 0
    · simp [cosine_similarity, he, h, hn]
    · have hna : 0 < normE a :=
        lt_of_le_of_ne (normE_nonneg a) (fun hh => hn (Or.inl hh.symm))
      have hnb : 0 < normE b :=
        lt_of_le_of_ne (normE_nonneg b) (fun hh => hn (Or.inr hh.symm))
      have hq : dotList a b / (normE a * normE b) ≤ 0 :=
        le_of_lt (div_neg_of_neg_of_pos hd (mul_pos hna hnb))
      simp [cosine_similarity, he, h, hn, clamp01_of_nonpos hq]

lemma cosine_similarity_mismatch (a b : List ℝ)
    (ha : a.isEmpty = false) (hb : b.isEmpty = false)
    (h : a.length ≠ b.length) :
    cosine_similarity a b = .error .dimensionMismatch := by
  simp [cosine_similarity, ha, hb, h]

end JobCandidateMatch


namespace CandidateJobMatch

lemma calculate_match_score_missing (db : Db) (self : CandidateJobMatch)
    (candidate : Option Candidate) (job : Option Job) (now : Nat)
    (h : resolved_candidate db self candidate = none ∨ resolved_job db self job = none) :
    calculate_match_score db self candidate job now = .ok (0, self, []) := by
  unfold calculate_match_score
  rcases h with h | h
  · rw [h]
  · rw [h]
    cases resolved_candidate db self candidate <;> rfl

lemma calculate_match_score_fallback (db : Db) (self : CandidateJobMatch)
    (candidate : Option Candidate) (job : Option Job) (now : Nat)
    (c : Candidate) (j : Job)
    (hc : resolved_candidate db self candidate = some c)
    (hj : resolved_job db self job = some j)
    (h : (c.embedding.isEmpty || j.embedding.isEmpty) = true) :
    calculate_match_score db self candidate job now =
      .ok (calculate_skills_match c j,
        { self with
          skills_match_score := calculate_skills_match c j,
          embedding_match_score := 0,
          match_score := calculate_skills_match c j }, []) := by
  simp [calculate_match_score, hc, hj, h]

lemma calculate_match_score_full (db : Db) (self : CandidateJobMatch)
    (candidate : Option Candidate) (job : Option Job) (now : Nat)
    (c : Candidate) (j : Job) (e : ℝ)
    (hc : resolved_candidate db self candidate = some c)
    (hj : resolved_job db self job = some j)
    (h : (c.embedding.isEmpty || j.embedding.isEmpty) = false)
    (hemb : calculate_embedding_match c.embedding j.embedding = .ok e) :
    calculate_match_score db self candidate job now =
      .ok (calculate_skills_match c j * 0.4 + e * 0.6,
        { self with
          skills_match_score := calculate_skills_match c j,
          embedding_match_score := e,
          match_score := calculate_skills_match c j * 0.4 + e * 0.6,
          match_data := some
            { skills_match_score := calculate_skills_match c j,
              embedding_match_score := e,
              total_score := calculate_skills_match c j * 0.4 + e * 0.6,
              calculation_timestamp := now } }, []) := by
  simp [calculate_match_score, hc, hj, h, hemb]

lemma calculate_embedding_match_ok (a b : List ℝ) (h : a.length = b.length) :
    ∃ r, calculate_embedding_match a b = .ok r ∧ 0 ≤ r ∧ r ≤ 1 := by
  by_cases hn : normE a = 0 ∨ normE b = 0
  · exact ⟨0, by simp [calculate_embedding_match, h, hn], le_refl 0, zero_le_one⟩
  · refine ⟨clamp01 (dotList a b / (normE a * normE b)), ?_,
      clamp01_nonneg _, clamp01_le_one _⟩
    simp [calculate_embedding_match, h, hn]

lemma calculate_embedding_match_zero_norm (a b : List ℝ) (h : a.length = b.length)
    (hn : normE a = 0 ∨ normE b = 0) :
    calculate_embedding_match a b = .ok 0 := by
  simp [calculate_embedding_match, h, hn]

lemma calculate_embedding_match_mismatch (a b : List ℝ) (h : a.length ≠ b.length) :
    calculate_embedding_match a b = .error .dimensionMismatch := by
  simp [calculate_embedding_match, h]

end CandidateJobMatch



/-- Error propagation: a similarity failure on the full path escapes
`calculate_score` unhandled (there is no `try` in the source). -/
lemma calculate_score_err (db : Db) (self : JobCandidateMatch)
    (a b : List ℝ) (now : Nat) (er : SimError)
    (hab : ((JobCandidateMatch.resolved_job_embedding db self a).isEmpty
      || (JobCandidateMatch.resolved_candidate_embedding db self b).isEmpty) = false)
    (hcos : JobCandidateMatch.cosine_similarity
      (JobCandidateMatch.resolved_job_embedding db self a)
      (JobCandidateMatch.resolved_candidate_embedding db self b) = .error er) :
    JobCandidateMatch.calculate_score db self a b now = .error er := by
  simp only [JobCandidateMatch.calculate_score]
  rw [hab, if_neg (by simp), hcos]

/-- Error propagation for `calculate_match_score`. -/
lemma calculate_match_score_err (db : Db) (self : CandidateJobMatch)
    (candidate : Option Candidate) (job : Option Job) (now : Nat)
    (c : Candidate) (j : Job) (er : SimError)
    (hc : CandidateJobMatch.resolved_candidate db self candidate = some c)
    (hj : CandidateJobMatch.resolved_job db self job = some j)
    (h : (c.embedding.isEmpty || j.embedding.isEmpty) = false)
    (hemb : CandidateJobMatch.calculate_embedding_match c.embedding j.embedding = .error er) :
    CandidateJobMatch.calculate_match_score db self candidate job now = .error er := by
  simp [CandidateJobMatch.calculate_match_score, hc, hj, h, hemb]

/-- A missing job or candidate row makes the skill score `0.0`. -/
lemma calculate_skill_match_score_missing (db : Db) (self : JobCandidateMatch)
    (h : db.candidates self.candidate_id = none ∨ db.jobs self.job_id = none) :
    JobCandidateMatch.calculate_skill_match_score db self = 0 := by
  unfold JobCandidateMatch.calculate_skill_match_score
  rcases h with h | h
  · rw [h]
    cases db.jobs self.job_id <;> rfl
  · rw [h]

/-- With no embeddings passed, a missing row forces the fallback branch. -/
lemma resolved_missing (db : Db) (self : JobCandidateMatch)
    (h : db.candidates self.candidate_id = none ∨ db.jobs self.job_id = none) :
    ((JobCandidateMatch.resolved_job_embedding db self []).isEmpty
      || (JobCandidateMatch.resolved_candidate_embedding db self []).isEmpty) = true := by
  rcases h with h | h
  · have : JobCandidateMatch.resolved_candidate_embedding db self [] = [] := by
      simp [JobCandidateMatch.resolved_candidate_embedding, h]
    rw [this]
    simp
  · have : JobCandidateMatch.resolved_job_embedding db self [] = [] := by
      simp [JobCandidateMatch.resolved_job_embedding, h]
    rw [this]
    simp

/-- Scenario fixtures: candidate with skills python, sql; job with skills
python, go; neither has an embedding. -/
def candA : Candidate := { skills_array := ["python", "sql"], embedding := [] }

def jobA : Job := { skills_array := ["python", "go"], embedding := [] }

def dbA : Db := { candidates := fun _ => some candA, jobs := fun _ => some jobA }

def mA : JobCandidateMatch :=
  { job_id := 1, candidate_id := 2, score := 0, match_data := none, status := "new" }

def mCJ : CandidateJobMatch :=
  { candidate_id := 2, job_id := 1, match_score := 0, skills_match_score := 0,
    embedding_match_score := 0, match_data := none }

/-- Fixture database with no rows at all. -/
def dbNone : Db := { candidates := fun _ => none, jobs := fun _ => none }

lemma sumSq_one : sumSq [(1 : ℝ)] ≠ 0 := by
  simp [sumSq]

lemma skillA : JobCandidateMatch.calculate_skill_match_score dbA mA = 1/3 := by
  have h3 : ¬(skillSet jobA.skills_array = ∅ ∨ skillSet candA.skills_array = ∅) := by decide
  have h1 : (skillSet jobA.skills_array ∩ skillSet candA.skills_array).card = 1 := by decide
  have h2 : (skillSet jobA.skills_array ∪ skillSet candA.skills_array).card = 3 := by decide
  simp only [JobCandidateMatch.calculate_skill_match_score, dbA, mA]
  simp only [h3, if_false, h1, h2]
  norm_num

lemma skillsA : CandidateJobMatch.calculate_skills_match candA jobA = 1/3 := by
  have h3 : ¬(skillSet candA.skills_array = ∅ ∨ skillSet jobA.skills_array = ∅) := by decide
  have h1 : (skillSet candA.skills_array ∩ skillSet jobA.skills_array).card = 1 := by decide
  have h2 : (skillSet candA.skills_array ∪ skillSet jobA.skills_array).card = 3 := by decide
  simp only [CandidateJobMatch.calculate_skills_match]
  simp only [h3, if_false, h1, h2]
  norm_num

lemma skillNone : JobCandidateMatch.calculate_skill_match_score dbNone mA = 0 :=
  calculate_skill_match_score_missing dbNone mA (Or.inl rfl)

lemma fallbackA : ((JobCandidateMatch.resolved_job_embedding dbA mA []).isEmpty
    || (JobCandidateMatch.resolved_candidate_embedding dbA mA []).isEmpty) = true := by
  decide



/-- C1: when both a candidate and a job embedding are available, both score
combiners return 0.6 times the cosine-similarity component plus 0.4 times
the skill-overlap component, and for identical nonzero embeddings with a
zero skill overlap the match score is exactly 0.6. -/
theorem C1_weighted_score_combination :
    (∀ (db : Db) (self : JobCandidateMatch) (a b : List ℝ) (now : Nat) (s : ℝ),
      a.isEmpty = false → b.isEmpty = false →
      JobCandidateMatch.cosine_similarity a b = .ok s →
      ∃ self', JobCandidateMatch.calculate_score db self a b now =
        .ok (s * 0.6 + JobCandidateMatch.calculate_skill_match_score db self * 0.4, self', []))
    ∧
    (∀ (db : Db) (self : CandidateJobMatch) (c : Candidate) (j : Job) (now : Nat) (e : ℝ),
      (c.embedding.isEmpty || j.embedding.isEmpty) = false →
      CandidateJobMatch.calculate_embedding_match c.embedding j.embedding = .ok e →
      ∃ self', CandidateJobMatch.calculate_match_score db self (some c) (some j) now =
        .ok (CandidateJobMatch.calculate_skills_match c j * 0.4 + e * 0.6, self', []))
    ∧
    (∀ (db : Db) (self : JobCandidateMatch) (v : List ℝ) (now : Nat),
      v.isEmpty = false → sumSq v ≠ 0 →
      JobCandidateMatch.calculate_skill_match_score db self = 0 →
      ∃ self', JobCandidateMatch.calculate_score db self v v now = .ok (0.6, self', [])) := by
  refine ⟨?_, ?_, ?_⟩
  · intro db self a b now s ha hb hcos
    have hra := JobCandidateMatch.resolved_job_embedding_nonempty db self ha
    have hrb := JobCandidateMatch.resolved_candidate_embedding_nonempty db self hb
    exact ⟨_, JobCandidateMatch.calculate_score_full db self a b now s
      (by rw [hra, hrb, ha, hb]; rfl) (by rw [hra, hrb]; exact hcos)⟩
  · intro db self c j now e h hemb
    exact ⟨_, CandidateJobMatch.calculate_match_score_full db self (some c) (some j) now c j e
      rfl rfl h hemb⟩
  · intro db self v now hv hs hskill
    have hrv := JobCandidateMatch.resolved_job_embedding_nonempty db self hv
    have hrv2 := JobCandidateMatch.resolved_candidate_embedding_nonempty db self hv
    have hcos : JobCandidateMatch.cosine_similarity
        (JobCandidateMatch.resolved_job_embedding db self v)
        (JobCandidateMatch.resolved_candidate_embedding db self v) = .ok 1 := by
      rw [hrv, hrv2]
      exact cosine_self v hv hs
    refine ⟨{ self with
      score := 0.6,
      match_data := some
        { embedding_similarity := 1, skill_match_score := 0, total_score := 0.6,
          last_calculated_at := now } }, ?_⟩
    rw [JobCandidateMatch.calculate_score_full db self v v now 1
      (by rw [hrv, hrv2, hv]; rfl) hcos, hskill]
    norm_num

/-- Witness for C1 at a concrete input: identical embeddings `[1]` and a
database with no rows (skill overlap 0) give match score exactly 0.6. -/
theorem C1_witness :
    ([(1:ℝ)].isEmpty = false) ∧ sumSq [(1:ℝ)] ≠ 0 ∧
      JobCandidateMatch.calculate_skill_match_score dbNone mA = 0 ∧
      ∃ self', JobCandidateMatch.calculate_score dbNone mA [1] [1] 11 = .ok (0.6, self', []) :=
  ⟨rfl, sumSq_one, skillNone,
    C1_weighted_score_combination.2.2 dbNone mA [1] 11 rfl sumSq_one skillNone⟩

/-- C2: with either embedding absent both combiners fall back to the skill
overlap alone (no partial weights), and the scenario with skills python,
sql against python, go and no embeddings yields match score exactly 1/3. -/
theorem C2_missing_embedding_fallback :
    (∀ (db : Db) (self : JobCandidateMatch) (a b : List ℝ) (now : Nat),
      ((JobCandidateMatch.resolved_job_embedding db self a).isEmpty
        || (JobCandidateMatch.resolved_candidate_embedding db self b).isEmpty) = true →
      JobCandidateMatch.calculate_score db self a b now =
        .ok (JobCandidateMatch.calculate_skill_match_score db self, self, []))
    ∧
    (∀ (db : Db) (self : CandidateJobMatch) (c : Candidate) (j : Job) (now : Nat),
      (c.embedding.isEmpty || j.embedding.isEmpty) = true →
      ∃ self', CandidateJobMatch.calculate_match_score db self (some c) (some j) now =
        .ok (CandidateJobMatch.calculate_skills_match c j, self', []) ∧
        self'.match_score = CandidateJobMatch.calculate_skills_match c j)
    ∧
    (JobCandidateMatch.calculate_score dbA mA [] [] 5 = .ok (1/3, mA, []) ∧ mA.status = "new")
    ∧
    (∃ self', CandidateJobMatch.calculate_match_score dbA mCJ none none 5 =
      .ok (1/3, self', []) ∧ self'.match_score = 1/3) := by
  refine ⟨?_, ?_, ⟨?_, rfl⟩, ?_⟩
  · intro db self a b now h
    exact JobCandidateMatch.calculate_score_fallback db self a b now h
  · intro db self c j now h
    exact ⟨_, CandidateJobMatch.calculate_match_score_fallback db self
      (some c) (some j) now c j rfl rfl h, rfl⟩
  · rw [JobCandidateMatch.calculate_score_fallback dbA mA [] [] 5 fallbackA, skillA]
  · refine ⟨{ mCJ with
      skills_match_score := 1/3,
      embedding_match_score := 0,
      match_score := 1/3 }, ?_, rfl⟩
    have h := CandidateJobMatch.calculate_match_score_fallback dbA mCJ none none 5
      candA jobA rfl rfl (by decide)
    rw [skillsA] at h
    exact h

/-- Witness for C2 at the scenario input. -/
theorem C2_witness :
    (((JobCandidateMatch.resolved_job_embedding dbA mA []).isEmpty
      || (JobCandidateMatch.resolved_candidate_embedding dbA mA []).isEmpty) = true) ∧
    JobCandidateMatch.calculate_score dbA mA [] [] 5 =
      .ok (JobCandidateMatch.calculate_skill_match_score dbA mA, mA, []) :=
  ⟨fallbackA, C2_missing_embedding_fallback.1 dbA mA [] [] 5 fallbackA⟩

/-- C9: for equal-length vectors both similarity routines succeed with a
value in the interval from 0 to 1; empty input, zero magnitude and a
negative cosine all give exactly 0 without an error. -/
theorem C9_similarity_bounds :
    (∀ a b : List ℝ, a.length = b.length →
      ∃ r, JobCandidateMatch.cosine_similarity a b = .ok r ∧ 0 ≤ r ∧ r ≤ 1)
    ∧ (∀ a b : List ℝ, (a.isEmpty || b.isEmpty) = true →
      JobCandidateMatch.cosine_similarity a b = .ok 0)
    ∧ (∀ a b : List ℝ, a.length = b.length → normE a = 0 ∨ normE b = 0 →
      JobCandidateMatch.cosine_similarity a b = .ok 0)
    ∧ (∀ a b : List ℝ, a.length = b.length → dotList a b < 0 →
      JobCandidateMatch.cosine_similarity a b = .ok 0)
    ∧ (∀ a b : List ℝ, a.length = b.length →
      ∃ r, CandidateJobMatch.calculate_embedding_match a b = .ok r ∧ 0 ≤ r ∧ r ≤ 1)
    ∧ (∀ a b : List ℝ, a.length = b.length → normE a = 0 ∨ normE b = 0 →
      CandidateJobMatch.calculate_embedding_match a b = .ok 0) :=
  ⟨JobCandidateMatch.cosine_similarity_ok, JobCandidateMatch.cosine_similarity_empty,
   JobCandidateMatch.cosine_similarity_zero_norm, JobCandidateMatch.cosine_similarity_neg,
   CandidateJobMatch.calculate_embedding_match_ok,
   CandidateJobMatch.calculate_embedding_match_zero_norm⟩

/-- Witness for C9 at a concrete equal-length pair. -/
theorem C9_witness :
    ([(3:ℝ), 4].length = [(0:ℝ), 0].length) ∧
      ∃ r, JobCandidateMatch.cosine_similarity [(3:ℝ), 4] [(0:ℝ), 0] = .ok r ∧
        0 ≤ r ∧ r ≤ 1 :=
  ⟨rfl, C9_similarity_bounds.1 [(3:ℝ), 4] [(0:ℝ), 0] rfl⟩



/-- C7 counterexample: the pair `([], [1])` has unequal lengths yet
`_cosine_similarity` returns the numeric score `0.0` (its emptiness
short-circuit fires before `np.dot` can raise), so the claim does not hold
for every unequal-length pair. -/
theorem C7_counterexample :
    ([] : List ℝ).length ≠ [(1 : ℝ)].length ∧
    JobCandidateMatch.cosine_similarity [] [(1 : ℝ)] = .ok 0 :=
  ⟨by decide, JobCandidateMatch.cosine_similarity_empty [] [(1 : ℝ)] rfl⟩

/-- C7 amended: for nonempty vectors of unequal length
`_cosine_similarity` fails with the dimension-mismatch error, and
`_calculate_embedding_match` fails for every unequal-length pair; the error
propagates unhandled out of both scoring methods. -/
theorem C7_dimension_mismatch :
    (∀ a b : List ℝ, a.isEmpty = false → b.isEmpty = false → a.length ≠ b.length →
      JobCandidateMatch.cosine_similarity a b = .error .dimensionMismatch)
    ∧ (∀ a b : List ℝ, a.length ≠ b.length →
      CandidateJobMatch.calculate_embedding_match a b = .error .dimensionMismatch)
    ∧ (∀ (db : Db) (self : CandidateJobMatch) (c : Candidate) (j : Job) (now : Nat),
      (c.embedding.isEmpty || j.embedding.isEmpty) = false →
      c.embedding.length ≠ j.embedding.length →
      CandidateJobMatch.calculate_match_score db self (some c) (some j) now =
        .error .dimensionMismatch)
    ∧ (∀ (db : Db) (self : JobCandidateMatch) (a b : List ℝ) (now : Nat),
      a.isEmpty = false → b.isEmpty = false → a.length ≠ b.length →
      JobCandidateMatch.calculate_score db self a b now = .error .dimensionMismatch) := by
  refine ⟨JobCandidateMatch.cosine_similarity_mismatch,
    CandidateJobMatch.calculate_embedding_match_mismatch, ?_, ?_⟩
  · intro db self c j now hne hlen
    exact calculate_match_score_err db self (some c) (some j) now c j .dimensionMismatch
      rfl rfl hne (CandidateJobMatch.calculate_embedding_match_mismatch _ _ hlen)
  · intro db self a b now ha hb hlen
    have hra := JobCandidateMatch.resolved_job_embedding_nonempty db self ha
    have hrb := JobCandidateMatch.resolved_candidate_embedding_nonempty db self hb
    refine calculate_score_err db self a b now .dimensionMismatch
      (by rw [hra, hrb, ha, hb]; rfl) ?_
    rw [hra, hrb]
    exact JobCandidateMatch.cosine_similarity_mismatch a b ha hb hlen

/-- Witness for the amended C7 at a concrete unequal-length pair. -/
theorem C7_witness :
    ([(1 : ℝ)].isEmpty = false) ∧ [(1 : ℝ)].length ≠ [(1 : ℝ), 2].length ∧
    JobCandidateMatch.cosine_similarity [(1 : ℝ)] [(1 : ℝ), 2] =
      .error .dimensionMismatch :=
  ⟨rfl, by decide, C7_dimension_mismatch.1 [(1 : ℝ)] [(1 : ℝ), 2] rfl rfl (by decide)⟩

/-- Candidate whose single skill carries a trailing blank. -/
def candW : Candidate := { skills_array := ["python "], embedding := [] }

def jobW : Job := { skills_array := ["python"], embedding := [] }

/-- C8 counterexample: the source lower-cases but does not trim, so the
skill pair `"python "` versus `"python"` scores 0 where the spec's
case-fold-and-trim normalization scores 1. -/
theorem C8_counterexample :
    CandidateJobMatch.calculate_skills_match candW jobW = 0 ∧
    skillOverlapSpec candW.skills_array jobW.skills_array = 1 ∧
    CandidateJobMatch.calculate_skills_match candW jobW ≠
      skillOverlapSpec candW.skills_array jobW.skills_array := by
  have hskill : CandidateJobMatch.calculate_skills_match candW jobW = 0 := by
    have h3 : ¬(skillSet candW.skills_array = ∅ ∨ skillSet jobW.skills_array = ∅) := by decide
    have h1 : (skillSet candW.skills_array ∩ skillSet jobW.skills_array).card = 0 := by decide
    have h2 : (skillSet candW.skills_array ∪ skillSet jobW.skills_array).card = 2 := by decide
    simp only [CandidateJobMatch.calculate_skills_match]
    simp only [h3, if_false, h1, h2]
    norm_num
  have hspec : skillOverlapSpec candW.skills_array jobW.skills_array = 1 := by
    have h3 : ¬((candW.skills_array.map (fun s => pyLower (pyStrip s))).toFinset = ∅ ∨
        (jobW.skills_array.map (fun s => pyLower (pyStrip s))).toFinset = ∅) := by decide
    have h1 : ((candW.skills_array.map (fun s => pyLower (pyStrip s))).toFinset ∩
        (jobW.skills_array.map (fun s => pyLower (pyStrip s))).toFinset).card = 1 := by decide
    have h2 : ((candW.skills_array.map (fun s => pyLower (pyStrip s))).toFinset ∪
        (jobW.skills_array.map (fun s => pyLower (pyStrip s))).toFinset).card = 1 := by decide
    simp only [skillOverlapSpec]
    simp only [h3, if_false, h1, h2]
    norm_num
  refine ⟨hskill, hspec, ?_⟩
  rw [hskill, hspec]
  norm_num


/-- Normal form of the source's skill overlap: Jaccard similarity of the
lower-cased (untrimmed) sets, with 0 for an empty side. -/
lemma calculate_skills_match_eq (A B : List String) (ea eb : List ℝ) :
    CandidateJobMatch.calculate_skills_match ⟨A, ea⟩ ⟨B, eb⟩ =
      if skillSet A = ∅ ∨ skillSet B = ∅ then 0
      else ((skillSet A ∩ skillSet B).card : ℝ) / ((skillSet A ∪ skillSet B).card : ℝ) := by
  by_cases h : skillSet A = ∅ ∨ skillSet B = ∅
  · simp only [CandidateJobMatch.calculate_skills_match, h, if_true, if_pos h]
  · have hA : (skillSet A).Nonempty :=
      Finset.nonempty_iff_ne_empty.mpr (fun hh => h (Or.inl hh))
    have hu : 0 < (skillSet A ∪ skillSet B).card :=
      Finset.card_pos.mpr (hA.mono Finset.subset_union_left)
    simp only [CandidateJobMatch.calculate_skills_match, if_neg h, hu, if_true, if_pos hu]

lemma calculate_skills_match_comm (A B : List String) (ea eb : List ℝ) :
    CandidateJobMatch.calculate_skills_match ⟨A, ea⟩ ⟨B, eb⟩ =
      CandidateJobMatch.calculate_skills_match ⟨B, eb⟩ ⟨A, ea⟩ := by
  rw [calculate_skills_match_eq, calculate_skills_match_eq]
  by_cases h : skillSet A = ∅ ∨ skillSet B = ∅
  · rw [if_pos h, if_pos (Or.symm h)]
  · rw [if_neg h, if_neg (fun hh => h (Or.symm hh)), Finset.inter_comm, Finset.union_comm]

/-- Normal form of `_calculate_skill_match_score` once both rows resolve. -/
lemma calculate_skill_match_score_eq (db : Db) (self : JobCandidateMatch)
    (cand : Candidate) (job : Job)
    (hc : db.candidates self.candidate_id = some cand)
    (hj : db.jobs self.job_id = some job) :
    JobCandidateMatch.calculate_skill_match_score db self =
      if skillSet job.skills_array = ∅ ∨ skillSet cand.skills_array = ∅ then 0
      else if (skillSet job.skills_array ∪ skillSet cand.skills_array).card = 0 then 0
      else ((skillSet job.skills_array ∩ skillSet cand.skills_array).card : ℝ) /
        ((skillSet job.skills_array ∪ skillSet cand.skills_array).card : ℝ) := by
  unfold JobCandidateMatch.calculate_skill_match_score
  rw [hj, hc]

/-- The two implementations compute the same skill overlap on the same
rows. -/
lemma skill_match_score_agree (db : Db) (self : JobCandidateMatch)
    (cand : Candidate) (job : Job)
    (hc : db.candidates self.candidate_id = some cand)
    (hj : db.jobs self.job_id = some job) :
    JobCandidateMatch.calculate_skill_match_score db self =
      CandidateJobMatch.calculate_skills_match cand job := by
  have hcj : CandidateJobMatch.calculate_skills_match cand job =
      CandidateJobMatch.calculate_skills_match ⟨cand.skills_array, cand.embedding⟩
        ⟨job.skills_array, job.embedding⟩ := rfl
  rw [calculate_skill_match_score_eq db self cand job hc hj, hcj, calculate_skills_match_eq]
  by_cases h : skillSet job.skills_array = ∅ ∨ skillSet cand.skills_array = ∅
  · rw [if_pos h, if_pos (Or.symm h)]
  · have h' : ¬(skillSet cand.skills_array = ∅ ∨ skillSet job.skills_array = ∅) :=
      fun hh => h (Or.symm hh)
    have hA : (skillSet job.skills_array).Nonempty :=
      Finset.nonempty_iff_ne_empty.mpr (fun hh => h (Or.inl hh))
    have hu : (skillSet job.skills_array ∪ skillSet cand.skills_array).card ≠ 0 :=
      Nat.pos_iff_ne_zero.mp (Finset.card_pos.mpr (hA.mono Finset.subset_union_left))
    rw [if_neg h, if_neg hu, if_neg h', Finset.inter_comm, Finset.union_comm]

/-- C8 amended: the skill overlap is the Jaccard similarity of the
lower-cased skill sets without whitespace trimming; it is symmetric,
returns 0 when either normalized set is empty, and both implementations
agree on the same rows. -/
theorem C8_lowercase_jaccard :
    (∀ (A B : List String) (ea eb : List ℝ),
      CandidateJobMatch.calculate_skills_match ⟨A, ea⟩ ⟨B, eb⟩ =
        if skillSet A = ∅ ∨ skillSet B = ∅ then 0
        else ((skillSet A ∩ skillSet B).card : ℝ) / ((skillSet A ∪ skillSet B).card : ℝ))
    ∧ (∀ (A B : List String) (ea eb : List ℝ),
      CandidateJobMatch.calculate_skills_match ⟨A, ea⟩ ⟨B, eb⟩ =
        CandidateJobMatch.calculate_skills_match ⟨B, eb⟩ ⟨A, ea⟩)
    ∧ (∀ (A B : List String) (ea eb : List ℝ), skillSet A = ∅ ∨ skillSet B = ∅ →
      CandidateJobMatch.calculate_skills_match ⟨A, ea⟩ ⟨B, eb⟩ = 0)
    ∧ (∀ (db : Db) (self : JobCandidateMatch) (cand : Candidate) (job : Job),
      db.candidates self.candidate_id = some cand → db.jobs self.job_id = some job →
      JobCandidateMatch.calculate_skill_match_score db self =
        CandidateJobMatch.calculate_skills_match cand job) := by
  refine ⟨calculate_skills_match_eq, calculate_skills_match_comm, ?_, ?_⟩
  · intro A B ea eb h
    rw [calculate_skills_match_eq, if_pos h]
  · intro db self cand job hc hj
    exact skill_match_score_agree db self cand job hc hj

/-- Witness for the amended C8 at concrete inputs. -/
theorem C8_witness :
    (skillSet [] = ∅ ∨ skillSet ["python"] = ∅) ∧
    CandidateJobMatch.calculate_skills_match ⟨[], []⟩ ⟨["python"], []⟩ = 0 :=
  ⟨Or.inl rfl, C8_lowercase_jaccard.2.2.1 [] ["python"] [] [] (Or.inl rfl)⟩



/-- C10 counterexample: with the candidate row missing but both embeddings
passed in by the caller, `calculate_score` returns 0.6, not 0.0, so a
missing entity does not always yield a zero score. -/
theorem C10_counterexample :
    dbNone.candidates mA.candidate_id = none ∧
    JobCandidateMatch.calculate_score dbNone mA [1] [1] 7 =
      .ok (0.6, { mA with score := 0.6, match_data := some ⟨1, 0, 0.6, 7⟩ }, []) ∧
    (0.6 : ℝ) ≠ 0 := by
  refine ⟨rfl, ?_, by norm_num⟩
  have hres : ((JobCandidateMatch.resolved_job_embedding dbNone mA [1]).isEmpty
      || (JobCandidateMatch.resolved_candidate_embedding dbNone mA [1]).isEmpty) = false := by
    decide
  have hcos : JobCandidateMatch.cosine_similarity
      (JobCandidateMatch.resolved_job_embedding dbNone mA [1])
      (JobCandidateMatch.resolved_candidate_embedding dbNone mA [1]) = .ok 1 := by
    have h1 : JobCandidateMatch.resolved_job_embedding dbNone mA [1] = [1] := rfl
    have h2 : JobCandidateMatch.resolved_candidate_embedding dbNone mA [1] = [1] := rfl
    rw [h1, h2]
    exact cosine_self [1] (by decide) sumSq_one
  rw [JobCandidateMatch.calculate_score_full dbNone mA [1] [1] 7 1 hres hcos, skillNone]
  norm_num

/-- C10 amended: a missing candidate or job yields 0.0 with no error
whenever the computation has to resolve the entities itself —
unconditionally in `calculate_match_score`, and in `calculate_score` when
the caller passes no embeddings. -/
theorem C10_missing_entity :
    (∀ (db : Db) (self : CandidateJobMatch) (cand : Option Candidate)
      (job : Option Job) (now : Nat),
      CandidateJobMatch.resolved_candidate db self cand = none ∨
        CandidateJobMatch.resolved_job db self job = none →
      CandidateJobMatch.calculate_match_score db self cand job now = .ok (0, self, []))
    ∧ (∀ (db : Db) (self : JobCandidateMatch) (now : Nat),
      db.candidates self.candidate_id = none ∨ db.jobs self.job_id = none →
      JobCandidateMatch.calculate_score db self [] [] now = .ok (0, self, [])) := by
  constructor
  · exact CandidateJobMatch.calculate_match_score_missing
  · intro db self now h
    rw [JobCandidateMatch.calculate_score_fallback db self [] [] now
      (resolved_missing db self h), calculate_skill_match_score_missing db self h]

/-- Witness for the amended C10 on the empty database. -/
theorem C10_witness :
    (dbNone.candidates mA.candidate_id = none ∨ dbNone.jobs mA.job_id = none) ∧
    JobCandidateMatch.calculate_score dbNone mA [] [] 3 = .ok (0, mA, []) :=
  ⟨Or.inl rfl, C10_missing_entity.2 dbNone mA 3 (Or.inl rfl)⟩


/-- C4 counterexample: recomputation changes the stored score from 0 to
0.6 while the list of history rows inserted by the method is empty — the
score mutation is not accompanied by a MatchHistory entry. -/
theorem C4_counterexample :
    JobCandidateMatch.calculate_score dbNone mA [1] [1] 5 =
      .ok (0.6, { mA with score := 0.6, match_data := some ⟨1, 0, 0.6, 5⟩ }, []) ∧
    mA.score = 0 ∧ (0.6 : ℝ) ≠ 0 := by
  refine ⟨?_, rfl, by norm_num⟩
  have hres : ((JobCandidateMatch.resolved_job_embedding dbNone mA [1]).isEmpty
      || (JobCandidateMatch.resolved_candidate_embedding dbNone mA [1]).isEmpty) = false := by
    decide
  have hcos : JobCandidateMatch.cosine_similarity
      (JobCandidateMatch.resolved_job_embedding dbNone mA [1])
      (JobCandidateMatch.resolved_candidate_embedding dbNone mA [1]) = .ok 1 := by
    have h1 : JobCandidateMatch.resolved_job_embedding dbNone mA [1] = [1] := rfl
    have h2 : JobCandidateMatch.resolved_candidate_embedding dbNone mA [1] = [1] := rfl
    rw [h1, h2]
    exact cosine_self [1] (by decide) sumSq_one
  rw [JobCandidateMatch.calculate_score_full dbNone mA [1] [1] 5 1 hres hcos, skillNone]
  norm_num

/-- C4 amended: neither scoring method ever inserts a MatchHistory row —
on every successful path the list of history rows written is empty, so the
history invariant is not enforced by the model layer. -/
theorem C4_no_history_from_scoring :
    (∀ (db : Db) (self : JobCandidateMatch) (a b : List ℝ) (now : Nat)
      (r : ℝ) (self' : JobCandidateMatch) (hist : List MatchHistoryEntry),
      JobCandidateMatch.calculate_score db self a b now = .ok (r, self', hist) →
      hist = [])
    ∧ (∀ (db : Db) (self : CandidateJobMatch) (cand : Option Candidate)
      (job : Option Job) (now : Nat)
      (r : ℝ) (self' : CandidateJobMatch) (hist : List MatchHistoryEntry),
      CandidateJobMatch.calculate_match_score db self cand job now = .ok (r, self', hist) →
      hist = []) := by
  constructor
  · intro db self a b now r self' hist h
    simp only [JobCandidateMatch.calculate_score] at h
    split at h
    · simp only [Except.ok.injEq, Prod.mk.injEq] at h
      exact h.2.2.symm
    · split at h
      · exact absurd h (by simp)
      · simp only [Except.ok.injEq, Prod.mk.injEq] at h
        exact h.2.2.symm
  · intro db self cand job now r self' hist h
    simp only [CandidateJobMatch.calculate_match_score] at h
    split at h
    · split at h
      · simp only [Except.ok.injEq, Prod.mk.injEq] at h
        exact h.2.2.symm
      · split at h
        · exact absurd h (by simp)
        · simp only [Except.ok.injEq, Prod.mk.injEq] at h
          exact h.2.2.symm
    · simp only [Except.ok.injEq, Prod.mk.injEq] at h
      exact h.2.2.symm

/-- Witness for the amended C4 at the fallback scenario run. -/
theorem C4_witness :
    JobCandidateMatch.calculate_score dbA mA [] [] 5 =
      .ok (JobCandidateMatch.calculate_skill_match_score dbA mA, mA, []) ∧
    ([] : List MatchHistoryEntry) = [] :=
  ⟨JobCandidateMatch.calculate_score_fallback dbA mA [] [] 5 fallbackA,
   C4_no_history_from_scoring.1 dbA mA [] [] 5 _ mA []
     (JobCandidateMatch.calculate_score_fallback dbA mA [] [] 5 fallbackA)⟩

/-- C6 counterexample: a fallback computation returns the skill score 1/3
but leaves `match_data` exactly as it was (here `none`): the skill-only
path records no scoreDetail payload at all. -/
theorem C6_counterexample :
    JobCandidateMatch.calculate_score dbA mA [] [] 9 = .ok (1/3, mA, []) ∧
    mA.match_data = none := by
  constructor
  · rw [JobCandidateMatch.calculate_score_fallback dbA mA [] [] 9 fallbackA, skillA]
  · rfl

/-- C6 amended: only the full-combination path records a scoreDetail
payload (component scores, total and computation timestamp); the
skill-only fallback path returns the skill score with `match_data` left
unchanged, in both implementations. -/
theorem C6_score_detail_full_path_only :
    (∀ (db : Db) (self : JobCandidateMatch) (a b : List ℝ) (now : Nat) (s : ℝ),
      ((JobCandidateMatch.resolved_job_embedding db self a).isEmpty
        || (JobCandidateMatch.resolved_candidate_embedding db self b).isEmpty) = false →
      JobCandidateMatch.cosine_similarity (JobCandidateMatch.resolved_job_embedding db self a)
        (JobCandidateMatch.resolved_candidate_embedding db self b) = .ok s →
      ∃ r self', JobCandidateMatch.calculate_score db self a b now = .ok (r, self', []) ∧
        self'.match_data = some
          { embedding_similarity := s,
            skill_match_score := JobCandidateMatch.calculate_skill_match_score db self * 0.4,
            total_score := r,
            last_calculated_at := now })
    ∧ (∀ (db : Db) (self : JobCandidateMatch) (a b : List ℝ) (now : Nat),
      ((JobCandidateMatch.resolved_job_embedding db self a).isEmpty
        || (JobCandidateMatch.resolved_candidate_embedding db self b).isEmpty) = true →
      JobCandidateMatch.calculate_score db self a b now =
        .ok (JobCandidateMatch.calculate_skill_match_score db self, self, []))
    ∧ (∀ (db : Db) (self : CandidateJobMatch) (c : Candidate) (j : Job) (now : Nat) (e : ℝ),
      (c.embedding.isEmpty || j.embedding.isEmpty) = false →
      CandidateJobMatch.calculate_embedding_match c.embedding j.embedding = .ok e →
      ∃ r self', CandidateJobMatch.calculate_match_score db self (some c) (some j) now =
        .ok (r, self', []) ∧
        self'.match_data = some
          { skills_match_score := CandidateJobMatch.calculate_skills_match c j,
            embedding_match_score := e,
            total_score := r,
            calculation_timestamp := now })
    ∧ (∀ (db : Db) (self : CandidateJobMatch) (c : Candidate) (j : Job) (now : Nat),
      (c.embedding.isEmpty || j.embedding.isEmpty) = true →
      ∃ self', CandidateJobMatch.calculate_match_score db self (some c) (some j) now =
        .ok (CandidateJobMatch.calculate_skills_match c j, self', []) ∧
        self'.match_data = self.match_data) := by
  refine ⟨?_, ?_, ?_, ?_⟩
  · intro db self a b now s hab hcos
    exact ⟨_, _, JobCandidateMatch.calculate_score_full db self a b now s hab hcos, rfl⟩
  · intro db self a b now h
    exact JobCandidateMatch.calculate_score_fallback db self a b now h
  · intro db self c j now e h hemb
    exact ⟨_, _, CandidateJobMatch.calculate_match_score_full db self (some c) (some j)
      now c j e rfl rfl h hemb, rfl⟩
  · intro db self c j now h
    exact ⟨_, CandidateJobMatch.calculate_match_score_fallback db self (some c) (some j)
      now c j rfl rfl h, rfl⟩

/-- Witness for the amended C6 on a concrete full-path run. -/
theorem C6_witness :
    (((JobCandidateMatch.resolved_job_embedding dbNone mA [1]).isEmpty
      || (JobCandidateMatch.resolved_candidate_embedding dbNone mA [1]).isEmpty) = false) ∧
    ∃ r self', JobCandidateMatch.calculate_score dbNone mA [1] [1] 13 = .ok (r, self', []) ∧
      self'.match_data = some
        { embedding_similarity := 1,
          skill_match_score := JobCandidateMatch.calculate_skill_match_score dbNone mA * 0.4,
          total_score := r,
          last_calculated_at := 13 } := by
  have hres : ((JobCandidateMatch.resolved_job_embedding dbNone mA [1]).isEmpty
      || (JobCandidateMatch.resolved_candidate_embedding dbNone mA [1]).isEmpty) = false := by
    decide
  have hcos : JobCandidateMatch.cosine_similarity
      (JobCandidateMatch.resolved_job_embedding dbNone mA [1])
      (JobCandidateMatch.resolved_candidate_embedding dbNone mA [1]) = .ok 1 := by
    have h1 : JobCandidateMatch.resolved_job_embedding dbNone mA [1] = [1] := rfl
    have h2 : JobCandidateMatch.resolved_candidate_embedding dbNone mA [1] = [1] := rfl
    rw [h1, h2]
    exact cosine_self [1] (by decide) sumSq_one
  exact ⟨hres, C6_score_detail_full_path_only.1 dbNone mA [1] [1] 13 1 hres hcos⟩



/-- The in-place score update of an existing row never changes its key. -/
lemma hasKey_update (c j : Nat) (score : ℝ) (c' j' : Nat) (r : StoredMatch) :
    hasKey c' j' (if hasKey c j r then { r with match_score := score } else r) =
      hasKey c' j' r := by
  split
  · simp [hasKey]
  · rfl

/-- Upserting into a store that already holds the key leaves every key
count unchanged (rows are updated, none inserted). -/
lemma keyCount_upsert_existing (store : List StoredMatch) (c j : Nat) (score : ℝ)
    (hany : store.any (hasKey c j) = true) (c' j' : Nat) :
    keyCount (upsertMatch store c j score) c' j' = keyCount store c' j' := by
  unfold upsertMatch keyCount
  rw [if_pos hany, List.filter_map, List.length_map]
  congr 1
  apply List.filter_congr
  intro r _
  exact hasKey_update c j score c' j' r


/-- A store with no row for the key has key count zero. -/
lemma keyCount_eq_zero_of_any_false (store : List StoredMatch) (c j : Nat)
    (hany : store.any (hasKey c j) = false) : keyCount store c j = 0 := by
  unfold keyCount
  rw [List.length_eq_zero]
  rw [List.filter_eq_nil_iff]
  intro r hr
  have := List.any_eq_false.mp hany r hr
  simpa using this

/-- C3: every store reachable by upserts holds at most one live row per
(candidate, job) pair, and an upsert for a pair that already has a row
updates in place — the row count does not grow. -/
theorem C3_unique_match_per_pair :
    (∀ store : List StoredMatch, ReachableStore store → ∀ c j : Nat, keyCount store c j ≤ 1)
    ∧ (∀ (store : List StoredMatch) (c j : Nat) (score : ℝ),
        store.any (hasKey c j) = true →
        (upsertMatch store c j score).length = store.length) := by
  constructor
  · intro store h
    induction h with
    | nil =>
      intro c j
      simp [keyCount]
    | step store c j score hr ih =>
      intro c' j'
      cases hany : store.any (hasKey c j) with
      | true =>
        rw [keyCount_upsert_existing store c j score hany c' j']
        exact ih c' j'
      | false =>
        unfold upsertMatch keyCount
        rw [if_neg (by simp [hany]), List.filter_append, List.length_append]
        cases hk : hasKey c' j'
            ({ candidate_id := c, job_id := j, match_score := score, status := .new }) with
        | true =>
          have hc : c = c' ∧ j = j' := by
            simpa [hasKey] using hk
          have h0 : keyCount store c' j' = 0 := by
            rw [← hc.1, ← hc.2]
            exact keyCount_eq_zero_of_any_false store c j hany
          unfold keyCount at h0
          rw [h0, List.filter_cons_of_pos hk]
          simp
        | false =>
          rw [List.filter_cons_of_neg (by simp [hk])]
          simpa [keyCount] using ih c' j'
  · intro store c j score hany
    unfold upsertMatch
    rw [if_pos hany, List.length_map]

/-- A one-row store built by a single upsert from the empty store. -/
noncomputable def store1 : List StoredMatch := upsertMatch [] 1 2 (1/2)

/-- Witness for C3: the concrete reachable one-row store satisfies the
invariant, and a second upsert for the same pair does not grow it. -/
theorem C3_witness :
    ReachableStore store1 ∧ keyCount store1 1 2 ≤ 1 ∧
    store1.any (hasKey 1 2) = true ∧
    (upsertMatch store1 1 2 (3/4)).length = store1.length := by
  have hr : ReachableStore store1 := ReachableStore.step [] 1 2 (1/2) ReachableStore.nil
  have hany : store1.any (hasKey 1 2) = true := rfl
  exact ⟨hr, C3_unique_match_per_pair.1 store1 hr 1 2, hany,
    C3_unique_match_per_pair.2 store1 1 2 (3/4) hany⟩


/-- C5: the workflow admits exactly the transitions new to reviewed,
reviewed to contacted, and new/reviewed/contacted to rejected; rejected is
terminal; `transition` fails with InvalidTransition exactly when the
requested status is neither the current status nor allowed by the table; a
re-entrant transition succeeds as a no-op writing no history entry; a
proper transition writes exactly one history entry. -/
theorem C5_status_workflow :
    (∀ a b : MatchStatus, allowed a b = true ↔
      ((a = .new ∧ b = .reviewed) ∨ (a = .reviewed ∧ b = .contacted) ∨
       ((a = .new ∨ a = .reviewed ∨ a = .contacted) ∧ b = .rejected)))
    ∧ (∀ b : MatchStatus, allowed .rejected b = false)
    ∧ (∀ (r : StoredMatch) (s : MatchStatus) (actor : Nat) (note : Option String) (now : Nat),
        transition r s actor note now = .error .invalidTransition ↔
          (s ≠ r.status ∧ allowed r.status s = false))
    ∧ (∀ (r : StoredMatch) (actor : Nat) (note : Option String) (now : Nat),
        transition r r.status actor note now = .ok (r, []))
    ∧ (∀ (r : StoredMatch) (s : MatchStatus) (actor : Nat) (note : Option String) (now : Nat),
        s ≠ r.status → allowed r.status s = true →
        transition r s actor note now =
          .ok ({ r with status := s },
            [{ old_status := r.status, new_status := s, actor_id := actor,
               note := note, timestamp := now }])) := by
  refine ⟨?_, ?_, ?_, ?_, ?_⟩
  · intro a b
    cases a <;> cases b <;> decide
  · intro b
    cases b <;> rfl
  · intro r s actor note now
    by_cases hs : s = r.status
    · simp [transition, hs]
    · cases ha : allowed r.status s with
      | true => simp [transition, hs, ha]
      | false => simp [transition, hs, ha]
  · intro r actor note now
    unfold transition
    rw [if_pos rfl]
  · intro r s actor note now hs ha
    simp [transition, hs, ha]

/-- A fresh record in the initial status. -/
noncomputable def rec0 : StoredMatch :=
  { candidate_id := 1, job_id := 2, match_score := 0, status := .new }

/-- Witness for C5: contacting a record straight from `new` is refused. -/
theorem C5_witness :
    (MatchStatus.contacted ≠ rec0.status ∧ allowed rec0.status .contacted = false) ∧
    transition rec0 .contacted 4 none 0 = .error .invalidTransition :=
  ⟨⟨by decide, rfl⟩,
   (C5_status_workflow.2.2.1 rec0 .contacted 4 none 0).mpr ⟨by decide, rfl⟩⟩


end AIRecruiter
